import Mathlib

/-
Verification of the AI-music generation backend (the Express server in
this repository).  The server keeps an in-memory map of song records,
persisted wholesale to db.json, and drives a multi-stage generation
pipeline (lyrics, audio, cover art, then a video sub-pipeline) per song.
External provider calls (Gemini text, Suno audio, Imagen art, Veo video)
are modelled as oracle outcomes supplied to the pure step functions.
-/

namespace AIMusic

/-
The GenerationStatus object of the server: named string constants.  Song
records store the plain strings, exactly as the JavaScript does.
-/
namespace GenerationStatus

def GENERATING_LYRICS : String := "writing lyrics"

def GENERATING_AUDIO : String := "composing music"

def GENERATING_ART : String := "creating cover art"

def GENERATING_VIDEO : String := "directing video"

def POLLING_VIDEO : String := "rendering video"

def COMPLETE : String := "complete"

def ERROR : String := "error"

end GenerationStatus

/-
The song record.  Fields that the JavaScript leaves undefined until a
step populates them are Option-valued; status, statusMessage, lyrics and
title are always strings from creation onward.
-/
structure Song where
  id : String
  prompt : String
  title : String
  lyrics : String
  status : String
  statusMessage : String
  failedStep : Option String
  videoStyle : Option String
  difficulty : Option String
  createdAt : Nat
  excludeStyles : Option String
  vocalGender : Option String
  weirdness : Option Nat
  styleInfluence : Option Nat
  genre : Option String
  tempo : Option Nat
  keySignature : Option String
  tags : Option String
  audioUrl : Option String
  coverArtUrl : Option String
  videoUrl : Option String
  thumbnailUrl : Option String
  deriving DecidableEq

/- The in-memory store: song id to record, as an association list. -/
abbrev Store : Type := List (String × Song)

def lookupStore : Store → String → Option Song
  | [], _ => none
  | (k, v) :: rest, i => if k = i then some v else lookupStore rest i

def setStore : Store → String → Song → Store
  | [], i, s => [(i, s)]
  | (k, v) :: rest, i, s =>
      if k = i then (i, s) :: rest else (k, v) :: setStore rest i s

/- An HTTP response of one of the JSON handlers. -/
inductive ApiResponse where
  | ok (code : Nat) (song : Song)
  | err (code : Nat) (message : String)
  deriving DecidableEq

/-
Outcome of one Veo video generation attempt, as observed by
generateVideoForSong: the initial generateVideos call can throw, the
polling loop can throw, or the operation completes with or without a
download link.
-/
inductive VideoOutcome where
  | earlyError (msg : String)
  | pollError (msg : String)
  | done (link : Option String)
  deriving DecidableEq

def videoFails : VideoOutcome → Bool
  | .earlyError _ => true
  | .pollError _ => true
  | .done none => true
  | .done (some _) => false

/-
Oracle outcomes for the three main pipeline steps plus the video stage.
Each Except value is either the provider result text or the thrown
error message.
-/
structure PipelineOracle where
  lyricsResult : Except String String
  audioResult : Except String String
  artResult : Except String String
  videoResult : VideoOutcome

/- The catch branch of generateVideoForSong. -/
def applyVideoFailure (s : Song) (m : String) : Song :=
  { s with
      status := GenerationStatus.ERROR
      failedStep := some GenerationStatus.GENERATING_VIDEO
      statusMessage := if m = "" then "Failed to generate video." else m }

/-
The video sub-pipeline.  Mirrors generateVideoForSong in the server:
sets GENERATING_VIDEO and persists, calls the Veo adapter, sets
POLLING_VIDEO while awaiting completion, then either records
videoUrl and thumbnailUrl with status COMPLETE, or (on any exception or
a missing download link) records ERROR with failedStep GENERATING_VIDEO.
The function never throws: its catch handles all failures.
-/
def generateVideoForSong (apiKey : String) (o : VideoOutcome) (s : Song) : Song :=
  let s1 := { s with
      status := GenerationStatus.GENERATING_VIDEO
      statusMessage := "Directing the music video..." }
  match o with
  | .earlyError m => applyVideoFailure s1 m
  | .pollError m =>
      let s2 := { s1 with
          status := GenerationStatus.POLLING_VIDEO
          statusMessage := "Rendering the final cut..." }
      applyVideoFailure s2 m
  | .done none =>
      let s2 := { s1 with
          status := GenerationStatus.POLLING_VIDEO
          statusMessage := "Rendering the final cut..." }
      applyVideoFailure s2 "Video generation completed but no download link was found."
  | .done (some link) =>
      let s2 := { s1 with
          status := GenerationStatus.POLLING_VIDEO
          statusMessage := "Rendering the final cut..." }
      { s2 with
          videoUrl := some (link ++ "&key=" ++ apiKey)
          thumbnailUrl := s2.coverArtUrl
          status := GenerationStatus.COMPLETE
          statusMessage := "Your masterpiece is ready!" }

/-
stepGenerateLyrics: skipped when the song already has (custom) lyrics;
otherwise sets status and message, then either stores the trimmed
generated text or throws, leaving the status mutation in place.
A step that throws yields the mutated record together with the message.
-/
def stepGenerateLyrics (o : Except String String) (s : Song) :
    Except (Song × String) Song :=
  if s.lyrics = "" then
    let s1 := { s with
        status := GenerationStatus.GENERATING_LYRICS
        statusMessage := "Crafting the perfect words..." }
    match o with
    | .ok t => .ok { s1 with lyrics := t.trim }
    | .error m => .error (s1, m)
  else
    .ok s

def stepGenerateAudio (o : Except String String) (s : Song) :
    Except (Song × String) Song :=
  let s1 := { s with
      status := GenerationStatus.GENERATING_AUDIO
      statusMessage := "Composing the music..." }
  match o with
  | .ok url => .ok { s1 with audioUrl := some url }
  | .error m => .error (s1, m)

def stepGenerateArt (o : Except String String) (s : Song) :
    Except (Song × String) Song :=
  let s1 := { s with
      status := GenerationStatus.GENERATING_ART
      statusMessage := "Creating the cover art..." }
  match o with
  | .ok b64 => .ok { s1 with coverArtUrl := some ("data:image/png;base64," ++ b64) }
  | .error m => .error (s1, m)

inductive StepKind where
  | lyrics
  | audio
  | art
  deriving DecidableEq

def execStep : StepKind → PipelineOracle → Song → Except (Song × String) Song
  | .lyrics, o, s => stepGenerateLyrics o.lyricsResult s
  | .audio, o, s => stepGenerateAudio o.audioResult s
  | .art, o, s => stepGenerateArt o.artResult s

/- The ordered step list of generationPipeline: lyrics, audio, art. -/
def steps : List (String × StepKind) :=
  [(GenerationStatus.GENERATING_LYRICS, StepKind.lyrics),
   (GenerationStatus.GENERATING_AUDIO, StepKind.audio),
   (GenerationStatus.GENERATING_ART, StepKind.art)]

/- Array.prototype.findIndex over the step list, by status identifier. -/
def findStepIndex (startStep : String) : List (String × StepKind) → Option Nat
  | [] => none
  | (st, _) :: rest =>
      if st = startStep then some 0
      else (findStepIndex startStep rest).map (fun n => n + 1)

/- startIndex < 0 is replaced by 0: unknown identifiers fall back to 0. -/
def pipelineStartIndex (startStep : String) : Nat :=
  (findStepIndex startStep steps).getD 0

def runSteps (o : PipelineOracle) : List StepKind → Song → Except (Song × String) Song
  | [], s => .ok s
  | k :: ks, s =>
      match execStep k o s with
      | .ok s1 => runSteps o ks s1
      | .error e => .error e

/-
The main pipeline from a given start index: run the remaining steps in
order, then unconditionally the video sub-pipeline; any exception from a
step is caught, recording the status active at failure time as
failedStep and setting status ERROR with the error message.
-/
def pipelineFrom (apiKey : String) (o : PipelineOracle) (idx : Nat) (s : Song) : Song :=
  match runSteps o ((steps.drop idx).map Prod.snd) s with
  | .ok s1 => generateVideoForSong apiKey o.videoResult s1
  | .error (s1, m) =>
      { s1 with
          failedStep := some s1.status
          status := GenerationStatus.ERROR
          statusMessage := if m = "" then "An unknown error occurred during generation." else m }

def generationPipeline (apiKey : String) (o : PipelineOracle) (startStep : String)
    (s : Song) : Song :=
  pipelineFrom apiKey o (pipelineStartIndex startStep) s

/- The advancedOptions object of a generate request. -/
structure AdvancedOptions where
  excludeStyles : Option String
  vocalGender : Option String
  weirdness : Option Nat
  styleInfluence : Option Nat
  deriving DecidableEq

/- Body of POST /generate, fields absent in JSON modelled as none. -/
structure GenerateRequest where
  prompt : Option String
  customLyrics : Option String
  videoStyle : Option String
  difficulty : Option String
  advancedOptions : Option AdvancedOptions
  deriving DecidableEq

/-
Metadata parsed from the Gemini JSON answer.  The prompt requests
exactly the keys title, genre, tempo, keySignature, tags; present keys
overwrite the corresponding record fields via Object.assign.
-/
structure Metadata where
  title : Option String
  genre : Option String
  tempo : Option Nat
  keySignature : Option String
  tags : Option String
  deriving DecidableEq

/- The JavaScript idiom value or-else default for possibly empty strings. -/
def defaultIfEmpty (o : Option String) (d : String) : String :=
  match o with
  | some v => if v = "" then d else v
  | none => d

/- The initialSong literal built by the /generate handler. -/
def initialSong (freshId : String) (now : Nat) (req : GenerateRequest)
    (p : String) : Song :=
  { id := freshId
    prompt := p
    title := "Song about " ++ p.take 20 ++ "..."
    lyrics := req.customLyrics.getD ""
    status := GenerationStatus.GENERATING_LYRICS
    statusMessage := "Initializing..."
    failedStep := none
    videoStyle := some (defaultIfEmpty req.videoStyle "Cinematic")
    difficulty := some (defaultIfEmpty req.difficulty "Medium")
    createdAt := now
    excludeStyles := req.advancedOptions.bind AdvancedOptions.excludeStyles
    vocalGender := req.advancedOptions.bind AdvancedOptions.vocalGender
    weirdness := req.advancedOptions.bind AdvancedOptions.weirdness
    styleInfluence := req.advancedOptions.bind AdvancedOptions.styleInfluence
    genre := none
    tempo := none
    keySignature := none
    tags := none
    audioUrl := none
    coverArtUrl := none
    videoUrl := none
    thumbnailUrl := none }

/- Object.assign of the parsed metadata onto the initial record. -/
def applyMetadata (md : Metadata) (s : Song) : Song :=
  { s with
      title := md.title.getD s.title
      genre := match md.genre with | some g => some g | none => s.genre
      tempo := match md.tempo with | some t => some t | none => s.tempo
      keySignature := match md.keySignature with | some k => some k | none => s.keySignature
      tags := match md.tags with | some t => some t | none => s.tags }

/-
The record stored and returned by /generate: the initial literal, with
the metadata merged when the Gemini answer parsed, unchanged otherwise.
-/
def createdSong (freshId : String) (now : Nat) (req : GenerateRequest)
    (p : String) (md : Option Metadata) : Song :=
  match md with
  | some m => applyMetadata m (initialSong freshId now req p)
  | none => initialSong freshId now req p

/-
POST /generate.  A missing or empty prompt is rejected 400 before any
mutation.  freshId stands for the uuidv4 value, now for the creation
timestamp, and mo for the outcome of the Gemini metadata call: a thrown
error yields 500 with no mutation, a successful call carries the parsed
metadata, or none when its JSON failed to parse (tolerated).
On success the record is stored, persisted, and answered with 201.
-/
def generateHandler (freshId : String) (now : Nat)
    (mo : Except String (Option Metadata)) (req : GenerateRequest)
    (store : Store) : Store × ApiResponse :=
  match req.prompt with
  | none => (store, .err 400 "Prompt is required.")
  | some p =>
      if p = "" then (store, .err 400 "Prompt is required.")
      else
        match mo with
        | .error m =>
            (store, .err 500 (if m = "" then "Failed to start song generation." else m))
        | .ok md =>
            let s1 := createdSong freshId now req p md
            (setStore store freshId s1, .ok 201 s1)

/- The song object carried by a retry or regenerate-video request body. -/
structure SongRef where
  id : Option String
  failedStep : Option String
  deriving DecidableEq

/- The retry handler's update of the stored record before re-running. -/
def retryApply (fs : String) (s : Song) : Song :=
  { s with
      status := fs
      statusMessage := "Retrying..."
      failedStep := none }

structure RetryResult where
  store : Store
  response : ApiResponse
  pipelineCall : Option (String × String)
  deriving DecidableEq

def retryReject (store : Store) : RetryResult :=
  { store := store
    response := .err 400 "Invalid song data for retry."
    pipelineCall := none }

/-
POST /retry.  Rejects 400 when the request body carries no song object,
no id, or no failedStep (JavaScript falsiness: absent or empty string).
Rejects 404 when the id is not in the store.  Otherwise updates the
stored record via retryApply, persists, responds with it, and invokes
generationPipeline detached with the caller-supplied failedStep as the
start step (recorded here as pipelineCall).
-/
def retryHandler (songRef : Option SongRef) (store : Store) : RetryResult :=
  match songRef with
  | none => retryReject store
  | some r =>
      match r.id, r.failedStep with
      | some i, some fs =>
          if i = "" then retryReject store
          else if fs = "" then retryReject store
          else
            match lookupStore store i with
            | none =>
                { store := store
                  response := .err 404 "Song not found to retry."
                  pipelineCall := none }
            | some s =>
                let s1 := retryApply fs s
                { store := setStore store i s1
                  response := .ok 200 s1
                  pipelineCall := some (i, fs) }
      | _, _ => retryReject store

/-
The regenerate-video handler's Object.assign: overwrites videoStyle and
difficulty with the request values (undefined included) and clears
videoUrl and thumbnailUrl.
-/
def regenApply (vs df : Option String) (s : Song) : Song :=
  { s with
      videoStyle := vs
      difficulty := df
      videoUrl := none
      thumbnailUrl := none }

structure RegenResult where
  store : Store
  response : ApiResponse
  videoCall : Option String
  deriving DecidableEq

/-
POST /regenerate-video.  Rejects 400 without a song object or id,
404 when the id is unknown; otherwise applies regenApply, persists,
responds with the updated record and invokes generateVideoForSong
detached (recorded here as videoCall).
-/
def regenHandler (songRef : Option SongRef) (vs df : Option String)
    (store : Store) : RegenResult :=
  match songRef with
  | none => { store := store, response := .err 400 "Invalid song data.", videoCall := none }
  | some r =>
      match r.id with
      | none => { store := store, response := .err 400 "Invalid song data.", videoCall := none }
      | some i =>
          if i = "" then
            { store := store, response := .err 400 "Invalid song data.", videoCall := none }
          else
            match lookupStore store i with
            | none => { store := store, response := .err 404 "Song not found.", videoCall := none }
            | some s =>
                let s1 := regenApply vs df s
                { store := setStore store i s1
                  response := .ok 200 s1
                  videoCall := some i }

/- Outcome of reading db.json at startup. -/
inductive ReadOutcome where
  | enoent
  | otherError
  | ok (data : String)
  deriving DecidableEq

inductive LoadResult where
  | loaded (songs : Store)
  | exitProcess (code : Nat)

/-
loadSongs: a missing snapshot (ENOENT) yields the empty store and the
process proceeds; any other read error, or content that JSON.parse
rejects, exits the process with code 1.  The parse argument stands for
JSON.parse, returning none on a parse exception.
-/
def loadSongs (read : ReadOutcome) (parse : String → Option Store) : LoadResult :=
  match read with
  | .enoent => .loaded []
  | .otherError => .exitProcess 1
  | .ok data =>
      match parse data with
      | some m => .loaded m
      | none => .exitProcess 1

/-
Records reachable through the operations, one constructor per genuine
call path in the server: record creation by /generate, the detached
pipeline run it triggers, the /retry update and its detached pipeline
run starting at the caller-supplied failedStep, and the
/regenerate-video update and its detached video sub-pipeline run.
-/
inductive Reachable : Song → Prop
  | generated (freshId : String) (now : Nat) (req : GenerateRequest) (p : String)
      (md : Option Metadata) (hp : req.prompt = some p) (hne : p ≠ "") :
      Reachable (createdSong freshId now req p md)
  | genRun (freshId : String) (now : Nat) (req : GenerateRequest) (p : String)
      (md : Option Metadata) (apiKey : String) (o : PipelineOracle)
      (hp : req.prompt = some p) (hne : p ≠ "") :
      Reachable (generationPipeline apiKey o GenerationStatus.GENERATING_LYRICS
        (createdSong freshId now req p md))
  | retried (s : Song) (fs : String) (h : Reachable s) (hfs : fs ≠ "") :
      Reachable (retryApply fs s)
  | retryRun (s : Song) (fs : String) (apiKey : String) (o : PipelineOracle)
      (h : Reachable s) (hfs : fs ≠ "") :
      Reachable (generationPipeline apiKey o fs (retryApply fs s))
  | regened (s : Song) (vs df : Option String) (h : Reachable s) :
      Reachable (regenApply vs df s)
  | regenRun (s : Song) (vs df : Option String) (apiKey : String) (vo : VideoOutcome)
      (h : Reachable s) :
      Reachable (generateVideoForSong apiKey vo (regenApply vs df s))

/-
The same reachable set under two usage provisos: a retry request never
carries the ERROR value itself as its failedStep, and regenerate-video
is only invoked on records whose failedStep is absent.
-/
inductive ReachableSafe : Song → Prop
  | generated (freshId : String) (now : Nat) (req : GenerateRequest) (p : String)
      (md : Option Metadata) (hp : req.prompt = some p) (hne : p ≠ "") :
      ReachableSafe (createdSong freshId now req p md)
  | genRun (freshId : String) (now : Nat) (req : GenerateRequest) (p : String)
      (md : Option Metadata) (apiKey : String) (o : PipelineOracle)
      (hp : req.prompt = some p) (hne : p ≠ "") :
      ReachableSafe (generationPipeline apiKey o GenerationStatus.GENERATING_LYRICS
        (createdSong freshId now req p md))
  | retried (s : Song) (fs : String) (h : ReachableSafe s) (hfs : fs ≠ "")
      (herr : fs ≠ GenerationStatus.ERROR) :
      ReachableSafe (retryApply fs s)
  | retryRun (s : Song) (fs : String) (apiKey : String) (o : PipelineOracle)
      (h : ReachableSafe s) (hfs : fs ≠ "") (herr : fs ≠ GenerationStatus.ERROR) :
      ReachableSafe (generationPipeline apiKey o fs (retryApply fs s))
  | regened (s : Song) (vs df : Option String) (h : ReachableSafe s)
      (hclear : s.failedStep = none) :
      ReachableSafe (regenApply vs df s)
  | regenRun (s : Song) (vs df : Option String) (apiKey : String) (vo : VideoOutcome)
      (h : ReachableSafe s) (hclear : s.failedStep = none) :
      ReachableSafe (generateVideoForSong apiKey vo (regenApply vs df s))

/- The record state after a step run, whether it returned or threw. -/
def outcomeSong : Except (Song × String) Song → Song
  | .ok s => s
  | .error (s, _) => s

theorem execStep_failedStep (k : StepKind) (o : PipelineOracle) (s : Song) :
    (outcomeSong (execStep k o s)).failedStep = s.failedStep := by
  cases k with
  | lyrics =>
      by_cases hl : s.lyrics = "" <;>
        cases hr : o.lyricsResult <;>
          simp [execStep, stepGenerateLyrics, hl, hr, outcomeSong]
  | audio =>
      cases hr : o.audioResult <;>
        simp [execStep, stepGenerateAudio, hr, outcomeSong]
  | art =>
      cases hr : o.artResult <;>
        simp [execStep, stepGenerateArt, hr, outcomeSong]

theorem runSteps_failedStep (o : PipelineOracle) (ks : List StepKind) (s : Song) :
    (outcomeSong (runSteps o ks s)).failedStep = s.failedStep := by
  induction ks generalizing s with
  | nil => rfl
  | cons k ks ih =>
      unfold runSteps
      cases he : execStep k o s with
      | ok s1 =>
          have h1 : s1.failedStep = s.failedStep := by
            have h2 := execStep_failedStep k o s
            rw [he] at h2
            exact h2
          exact (ih s1).trans h1
      | error e =>
          obtain ⟨s1, m⟩ := e
          have h2 := execStep_failedStep k o s
          rw [he] at h2
          exact h2

theorem execStep_lyrics_preserved (k : StepKind) (hk : k ≠ StepKind.lyrics)
    (o : PipelineOracle) (s : Song) :
    (outcomeSong (execStep k o s)).lyrics = s.lyrics := by
  cases k with
  | lyrics => exact absurd rfl hk
  | audio =>
      cases hr : o.audioResult <;>
        simp [execStep, stepGenerateAudio, hr, outcomeSong]
  | art =>
      cases hr : o.artResult <;>
        simp [execStep, stepGenerateArt, hr, outcomeSong]

theorem runSteps_lyrics_preserved (o : PipelineOracle) (ks : List StepKind)
    (hk : StepKind.lyrics ∉ ks) (s : Song) :
    (outcomeSong (runSteps o ks s)).lyrics = s.lyrics := by
  induction ks generalizing s with
  | nil => rfl
  | cons k ks ih =>
      have hk1 : k ≠ StepKind.lyrics := by
        intro he
        exact hk (he ▸ List.mem_cons_self k ks)
      have hk2 : StepKind.lyrics ∉ ks := fun hm => hk (List.mem_cons_of_mem k hm)
      unfold runSteps
      cases he : execStep k o s with
      | ok s1 =>
          have h1 : s1.lyrics = s.lyrics := by
            have h2 := execStep_lyrics_preserved k hk1 o s
            rw [he] at h2
            exact h2
          exact (ih hk2 s1).trans h1
      | error e =>
          obtain ⟨s1, m⟩ := e
          have h2 := execStep_lyrics_preserved k hk1 o s
          rw [he] at h2
          exact h2

theorem generateVideoForSong_lyrics (k : String) (vo : VideoOutcome) (s : Song) :
    (generateVideoForSong k vo s).lyrics = s.lyrics := by
  cases vo with
  | earlyError m => rfl
  | pollError m => rfl
  | done l => cases l <;> rfl

theorem generateVideoForSong_audioUrl (k : String) (vo : VideoOutcome) (s : Song) :
    (generateVideoForSong k vo s).audioUrl = s.audioUrl := by
  cases vo with
  | earlyError m => rfl
  | pollError m => rfl
  | done l => cases l <;> rfl

theorem generateVideoForSong_coverArtUrl (k : String) (vo : VideoOutcome) (s : Song) :
    (generateVideoForSong k vo s).coverArtUrl = s.coverArtUrl := by
  cases vo with
  | earlyError m => rfl
  | pollError m => rfl
  | done l => cases l <;> rfl

theorem pipelineFrom_lyrics (k : String) (o : PipelineOracle) (idx : Nat) (s : Song)
    (h : StepKind.lyrics ∉ (steps.drop idx).map Prod.snd) :
    (pipelineFrom k o idx s).lyrics = s.lyrics := by
  unfold pipelineFrom
  cases hr : runSteps o ((steps.drop idx).map Prod.snd) s with
  | ok s1 =>
      have h1 : s1.lyrics = s.lyrics := by
        have h2 := runSteps_lyrics_preserved o _ h s
        rw [hr] at h2
        exact h2
      exact (generateVideoForSong_lyrics k o.videoResult s1).trans h1
  | error e =>
      obtain ⟨s1, m⟩ := e
      have h2 := runSteps_lyrics_preserved o _ h s
      rw [hr] at h2
      exact h2

theorem generateVideoForSong_inv (k : String) (vo : VideoOutcome) (s : Song)
    (h : s.failedStep = none) :
    ((generateVideoForSong k vo s).failedStep ≠ none ↔
      (generateVideoForSong k vo s).status = GenerationStatus.ERROR) := by
  cases vo with
  | earlyError m => exact iff_of_true (Option.some_ne_none _) rfl
  | pollError m => exact iff_of_true (Option.some_ne_none _) rfl
  | done l =>
      cases l with
      | none => exact iff_of_true (Option.some_ne_none _) rfl
      | some link =>
          refine iff_of_false ?_ ?_
          · have h1 : (generateVideoForSong k (VideoOutcome.done (some link)) s).failedStep
                = s.failedStep := rfl
            rw [h1, h]
            simp
          · have h1 : (generateVideoForSong k (VideoOutcome.done (some link)) s).status
                = GenerationStatus.COMPLETE := rfl
            rw [h1]
            decide

theorem generationPipeline_inv (k : String) (o : PipelineOracle) (start : String)
    (s : Song) (h : s.failedStep = none) :
    ((generationPipeline k o start s).failedStep ≠ none ↔
      (generationPipeline k o start s).status = GenerationStatus.ERROR) := by
  unfold generationPipeline pipelineFrom
  cases hr : runSteps o ((steps.drop (pipelineStartIndex start)).map Prod.snd) s with
  | ok s1 =>
      have h1 : s1.failedStep = none := by
        have h2 := runSteps_failedStep o
          ((steps.drop (pipelineStartIndex start)).map Prod.snd) s
        rw [hr] at h2
        exact h2.trans h
      exact generateVideoForSong_inv k o.videoResult s1 h1
  | error e =>
      obtain ⟨s1, m⟩ := e
      exact iff_of_true (Option.some_ne_none _) rfl

theorem createdSong_failedStep (freshId : String) (now : Nat) (req : GenerateRequest)
    (p : String) (md : Option Metadata) :
    (createdSong freshId now req p md).failedStep = none := by
  cases md <;> rfl

theorem createdSong_status (freshId : String) (now : Nat) (req : GenerateRequest)
    (p : String) (md : Option Metadata) :
    (createdSong freshId now req p md).status = GenerationStatus.GENERATING_LYRICS := by
  cases md <;> rfl

theorem createdSong_id (freshId : String) (now : Nat) (req : GenerateRequest)
    (p : String) (md : Option Metadata) :
    (createdSong freshId now req p md).id = freshId := by
  cases md <;> rfl

theorem lookupStore_setStore_self (st : Store) (i : String) (s : Song) :
    lookupStore (setStore st i s) i = some s := by
  induction st with
  | nil => simp [setStore, lookupStore]
  | cons kv rest ih =>
      obtain ⟨k, v⟩ := kv
      by_cases hk : k = i
      · simp [setStore, hk, lookupStore]
      · simp [setStore, hk, lookupStore, ih]

/- A fully populated record, used to instantiate the theorems below. -/
def sampleSong : Song :=
  { id := "s1"
    prompt := "synthwave night drive"
    title := "Neon Horizon"
    lyrics := "verse one"
    status := GenerationStatus.COMPLETE
    statusMessage := "Your masterpiece is ready!"
    failedStep := none
    videoStyle := some "Cinematic"
    difficulty := some "Medium"
    createdAt := 0
    excludeStyles := none
    vocalGender := none
    weirdness := none
    styleInfluence := none
    genre := some "synthwave"
    tempo := some 110
    keySignature := some "A minor"
    tags := some "retro"
    audioUrl := some "http://audio"
    coverArtUrl := some "data:image/png;base64,AAAA"
    videoUrl := some "http://video"
    thumbnailUrl := some "data:image/png;base64,AAAA" }

def demoOracle : PipelineOracle :=
  { lyricsResult := .ok "la la"
    audioResult := .ok "http://audio-new"
    artResult := .ok "BBBB"
    videoResult := .done (some "http://video-new") }

def demoParse : String → Option Store := fun _ => none

/-- C2: whenever the video sub-pipeline fails (an exception before or
during polling, or a completed operation without a download link), the
record gets status ERROR, failedStep GENERATING_VIDEO and a non-empty
descriptive message, while lyrics, audioUrl and coverArtUrl are left
unchanged. -/
theorem video_failure_marks_error (k : String) (vo : VideoOutcome) (s : Song)
    (h : videoFails vo = true) :
    (generateVideoForSong k vo s).status = GenerationStatus.ERROR ∧
    (generateVideoForSong k vo s).failedStep = some GenerationStatus.GENERATING_VIDEO ∧
    (generateVideoForSong k vo s).statusMessage ≠ "" ∧
    (generateVideoForSong k vo s).lyrics = s.lyrics ∧
    (generateVideoForSong k vo s).audioUrl = s.audioUrl ∧
    (generateVideoForSong k vo s).coverArtUrl = s.coverArtUrl := by
  cases vo with
  | earlyError m =>
      refine ⟨rfl, rfl, ?_, rfl, rfl, rfl⟩
      show (if m = "" then "Failed to generate video." else m) ≠ ""
      by_cases hm : m = ""
      · rw [if_pos hm]; decide
      · rw [if_neg hm]; exact hm
  | pollError m =>
      refine ⟨rfl, rfl, ?_, rfl, rfl, rfl⟩
      show (if m = "" then "Failed to generate video." else m) ≠ ""
      by_cases hm : m = ""
      · rw [if_pos hm]; decide
      · rw [if_neg hm]; exact hm
  | done l =>
      cases l with
      | none =>
          refine ⟨rfl, rfl, ?_, rfl, rfl, rfl⟩
          show ("Video generation completed but no download link was found." : String) ≠ ""
          decide
      | some link => simp [videoFails] at h

theorem video_failure_marks_error_witness :
    videoFails (VideoOutcome.earlyError "boom") = true ∧
    ((generateVideoForSong "K" (VideoOutcome.earlyError "boom") sampleSong).status
        = GenerationStatus.ERROR ∧
      (generateVideoForSong "K" (VideoOutcome.earlyError "boom") sampleSong).failedStep
        = some GenerationStatus.GENERATING_VIDEO ∧
      (generateVideoForSong "K" (VideoOutcome.earlyError "boom") sampleSong).statusMessage ≠ "" ∧
      (generateVideoForSong "K" (VideoOutcome.earlyError "boom") sampleSong).lyrics
        = sampleSong.lyrics ∧
      (generateVideoForSong "K" (VideoOutcome.earlyError "boom") sampleSong).audioUrl
        = sampleSong.audioUrl ∧
      (generateVideoForSong "K" (VideoOutcome.earlyError "boom") sampleSong).coverArtUrl
        = sampleSong.coverArtUrl) :=
  ⟨rfl, video_failure_marks_error "K" (VideoOutcome.earlyError "boom") sampleSong rfl⟩

/-- C5: a retry with failedStep GENERATING_AUDIO resumes at index 1 of
the step list, so only the audio and art steps remain; the lyrics step
is never executed and the lyrics field of the retried run is the
original one, whatever the oracle outcomes. -/
theorem retry_audio_resumes_at_audio (k : String) (o : PipelineOracle) (s : Song) :
    pipelineStartIndex GenerationStatus.GENERATING_AUDIO = 1 ∧
    (steps.drop (pipelineStartIndex GenerationStatus.GENERATING_AUDIO)).map Prod.fst
      = [GenerationStatus.GENERATING_AUDIO, GenerationStatus.GENERATING_ART] ∧
    (generationPipeline k o GenerationStatus.GENERATING_AUDIO
      (retryApply GenerationStatus.GENERATING_AUDIO s)).lyrics = s.lyrics := by
  refine ⟨by decide, by decide, ?_⟩
  have h : StepKind.lyrics ∉
      (steps.drop (pipelineStartIndex GenerationStatus.GENERATING_AUDIO)).map Prod.snd := by
    decide
  exact pipelineFrom_lyrics k o (pipelineStartIndex GenerationStatus.GENERATING_AUDIO)
    (retryApply GenerationStatus.GENERATING_AUDIO s) h

/-- C8: loadSongs treats a missing db.json (ENOENT) as the empty store
and proceeds, while a snapshot that exists but does not parse makes the
process exit with code 1. -/
theorem loadSongs_missing_vs_corrupt (parse : String → Option Store) :
    loadSongs ReadOutcome.enoent parse = LoadResult.loaded [] ∧
    ∀ d, parse d = none → loadSongs (ReadOutcome.ok d) parse = LoadResult.exitProcess 1 := by
  refine ⟨rfl, ?_⟩
  intro d hd
  simp [loadSongs, hd]

theorem loadSongs_missing_vs_corrupt_witness :
    loadSongs ReadOutcome.enoent demoParse = LoadResult.loaded [] ∧
    demoParse "not json" = none ∧
    loadSongs (ReadOutcome.ok "not json") demoParse = LoadResult.exitProcess 1 :=
  ⟨(loadSongs_missing_vs_corrupt demoParse).1, rfl,
    (loadSongs_missing_vs_corrupt demoParse).2 "not json" rfl⟩

/-- C9: a start-step identifier matching none of the three step
statuses makes findIndex return a negative index, which is replaced by
0: the run is identical to one started at the first step, with no error
raised. -/
theorem pipeline_unknown_start_falls_back (startStep : String)
    (h1 : startStep ≠ GenerationStatus.GENERATING_LYRICS)
    (h2 : startStep ≠ GenerationStatus.GENERATING_AUDIO)
    (h3 : startStep ≠ GenerationStatus.GENERATING_ART) :
    pipelineStartIndex startStep = 0 ∧
    ∀ (k : String) (o : PipelineOracle) (s : Song),
      generationPipeline k o startStep s
        = generationPipeline k o GenerationStatus.GENERATING_LYRICS s := by
  have hidx : pipelineStartIndex startStep = 0 := by
    simp [pipelineStartIndex, findStepIndex, steps, Ne.symm h1, Ne.symm h2, Ne.symm h3]
  refine ⟨hidx, ?_⟩
  intro k o s
  unfold generationPipeline
  rw [hidx]
  rfl

theorem pipeline_unknown_start_falls_back_witness :
    ("no such step" ≠ GenerationStatus.GENERATING_LYRICS ∧
      "no such step" ≠ GenerationStatus.GENERATING_AUDIO ∧
      "no such step" ≠ GenerationStatus.GENERATING_ART) ∧
    pipelineStartIndex "no such step" = 0 ∧
    generationPipeline "K" demoOracle "no such step" sampleSong
      = generationPipeline "K" demoOracle GenerationStatus.GENERATING_LYRICS sampleSong :=
  ⟨⟨by decide, by decide, by decide⟩,
    (pipeline_unknown_start_falls_back "no such step" (by decide) (by decide) (by decide)).1,
    (pipeline_unknown_start_falls_back "no such step" (by decide) (by decide) (by decide)).2
      "K" demoOracle sampleSong⟩

/-- C10: GENERATING_VIDEO and POLLING_VIDEO match no entry of the main
step list, so a retry carrying either one restarts at index 0; with the
audio and art providers succeeding, the retried run overwrites audioUrl
and coverArtUrl with the fresh artifacts before the video sub-pipeline
runs. -/
theorem retry_video_restarts_from_first_step (k : String) (o : PipelineOracle) (s : Song)
    (fs : String)
    (hfs : fs = GenerationStatus.GENERATING_VIDEO ∨ fs = GenerationStatus.POLLING_VIDEO)
    (hl : s.lyrics ≠ "") (au ab : String)
    (ha : o.audioResult = Except.ok au) (hb : o.artResult = Except.ok ab) :
    pipelineStartIndex fs = 0 ∧
    (generationPipeline k o fs (retryApply fs s)).audioUrl = some au ∧
    (generationPipeline k o fs (retryApply fs s)).coverArtUrl
      = some ("data:image/png;base64," ++ ab) := by
  have hidx : pipelineStartIndex fs = 0 := by
    rcases hfs with h | h <;> subst h <;> decide
  have hsteps : (steps.drop 0).map Prod.snd
      = [StepKind.lyrics, StepKind.audio, StepKind.art] := rfl
  have hl0 : (retryApply fs s).lyrics ≠ "" := hl
  refine ⟨hidx, ?_, ?_⟩ <;>
    · unfold generationPipeline pipelineFrom
      rw [hidx, hsteps]
      simp [runSteps, execStep, stepGenerateLyrics, stepGenerateAudio, stepGenerateArt,
        ha, hb, hl0, generateVideoForSong_audioUrl, generateVideoForSong_coverArtUrl]

theorem retry_video_restarts_from_first_step_witness :
    ((GenerationStatus.GENERATING_VIDEO = GenerationStatus.GENERATING_VIDEO ∨
        GenerationStatus.GENERATING_VIDEO = GenerationStatus.POLLING_VIDEO) ∧
      sampleSong.lyrics ≠ "" ∧
      demoOracle.audioResult = Except.ok "http://audio-new" ∧
      demoOracle.artResult = Except.ok "BBBB") ∧
    (pipelineStartIndex GenerationStatus.GENERATING_VIDEO = 0 ∧
      (generationPipeline "K" demoOracle GenerationStatus.GENERATING_VIDEO
        (retryApply GenerationStatus.GENERATING_VIDEO sampleSong)).audioUrl
        = some "http://audio-new" ∧
      (generationPipeline "K" demoOracle GenerationStatus.GENERATING_VIDEO
        (retryApply GenerationStatus.GENERATING_VIDEO sampleSong)).coverArtUrl
        = some ("data:image/png;base64," ++ "BBBB")) :=
  ⟨⟨Or.inl rfl, by decide, rfl, rfl⟩,
    retry_video_restarts_from_first_step "K" demoOracle sampleSong
      GenerationStatus.GENERATING_VIDEO (Or.inl rfl) (by decide) "http://audio-new" "BBBB"
      rfl rfl⟩

def demoReq : GenerateRequest :=
  { prompt := some "synthwave night drive"
    customLyrics := none
    videoStyle := none
    difficulty := none
    advancedOptions := none }

def oracleAudioFails : PipelineOracle :=
  { lyricsResult := .ok "la la"
    audioResult := .error "rate limited"
    artResult := .ok "AAAA"
    videoResult := .done (some "http://video") }

/-
A record produced by generate, a pipeline run failing at the audio step
(leaving status ERROR with failedStep GENERATING_AUDIO), and then a
successful regenerate-video invocation: the video sub-pipeline sets
status COMPLETE but never clears failedStep.
-/
def regenAfterError : Song :=
  generateVideoForSong "K" (VideoOutcome.done (some "http://video-new"))
    (regenApply (some "Anime") (some "Hard")
      (generationPipeline "K" oracleAudioFails GenerationStatus.GENERATING_LYRICS
        (createdSong "id-1" 0 demoReq "synthwave night drive" none)))

/-- C1 counterexample: a record reachable through generate, a pipeline
run failing at the audio step, and a successful regenerate-video, ends
with status COMPLETE while failedStep is still GENERATING_AUDIO, so the
claimed equivalence between failedStep presence and status ERROR fails
on the reachable records. -/
theorem reachable_failedStep_invariant_cex :
    Reachable regenAfterError ∧
    regenAfterError.status = GenerationStatus.COMPLETE ∧
    regenAfterError.failedStep = some GenerationStatus.GENERATING_AUDIO ∧
    ¬(regenAfterError.failedStep ≠ none ↔ regenAfterError.status = GenerationStatus.ERROR) := by
  have h1 : Reachable (generationPipeline "K" oracleAudioFails
      GenerationStatus.GENERATING_LYRICS
      (createdSong "id-1" 0 demoReq "synthwave night drive" none)) :=
    Reachable.genRun "id-1" 0 demoReq "synthwave night drive" none "K" oracleAudioFails
      rfl (by decide)
  have h2 : Reachable regenAfterError :=
    Reachable.regenRun _ (some "Anime") (some "Hard") "K"
      (VideoOutcome.done (some "http://video-new")) h1
  have hst : regenAfterError.status = GenerationStatus.COMPLETE := rfl
  have hfs : regenAfterError.failedStep = some GenerationStatus.GENERATING_AUDIO := rfl
  refine ⟨h2, hst, hfs, fun hiff => ?_⟩
  have he : regenAfterError.status = GenerationStatus.ERROR := hiff.mp (by rw [hfs]; simp)
  rw [hst] at he
  exact absurd he (by decide)

/-- C1 (amended): failedStep is present iff status is ERROR for every
record reachable through the operations, provided regenerate-video is
only invoked on records with no recorded failedStep and no retry
request carries the ERROR value itself as its failedStep; without the
provisos the equivalence fails (see the counterexample). -/
theorem reachable_failedStep_iff_error (s : Song) (h : ReachableSafe s) :
    s.failedStep ≠ none ↔ s.status = GenerationStatus.ERROR := by
  induction h with
  | generated freshId now req p md hp hne =>
      rw [createdSong_failedStep, createdSong_status]
      exact iff_of_false (by simp) (by decide)
  | genRun freshId now req p md apiKey o hp hne =>
      exact generationPipeline_inv apiKey o _ _ (createdSong_failedStep freshId now req p md)
  | retried s fs h hfs herr ih =>
      refine iff_of_false ?_ ?_
      · show ¬((retryApply fs s).failedStep ≠ none)
        simp [retryApply]
      · show ¬((retryApply fs s).status = GenerationStatus.ERROR)
        simpa [retryApply] using herr
  | retryRun s fs apiKey o h hfs herr ih =>
      exact generationPipeline_inv apiKey o fs (retryApply fs s) rfl
  | regened s vs df h hclear ih =>
      have hst : s.status ≠ GenerationStatus.ERROR := fun he => (ih.mpr he) hclear
      refine iff_of_false ?_ ?_
      · show ¬((regenApply vs df s).failedStep ≠ none)
        simp [regenApply, hclear]
      · exact hst
  | regenRun s vs df apiKey vo h hclear ih =>
      exact generateVideoForSong_inv apiKey vo (regenApply vs df s) hclear

theorem reachable_failedStep_iff_error_witness :
    ((createdSong "id-1" 0 demoReq "synthwave night drive" none).failedStep ≠ none ↔
      (createdSong "id-1" 0 demoReq "synthwave night drive" none).status
        = GenerationStatus.ERROR) :=
  reachable_failedStep_iff_error _
    (ReachableSafe.generated "id-1" 0 demoReq "synthwave night drive" none rfl (by decide))

/-- C3: the retry endpoint answers 400 without touching the store when
the request carries no song object or the referenced song object has no
recorded failedStep (or empty id or failedStep), 404 when the id is not
in the store; on acceptance it clears failedStep, sets status to the
failed step, sets the retrying message, persists the updated record and
responds 200 with it, handing the failed step to the detached pipeline
run. -/
theorem retry_handler_contract (store : Store) :
    ((retryHandler none store).response = ApiResponse.err 400 "Invalid song data for retry." ∧
      (retryHandler none store).store = store ∧
      (retryHandler none store).pipelineCall = none) ∧
    (∀ r : SongRef, r.failedStep = none →
      (retryHandler (some r) store).response = ApiResponse.err 400 "Invalid song data for retry." ∧
      (retryHandler (some r) store).store = store ∧
      (retryHandler (some r) store).pipelineCall = none) ∧
    (∀ (r : SongRef) (i fs : String), r.id = some i → r.failedStep = some fs →
      i ≠ "" → fs ≠ "" → lookupStore store i = none →
      (retryHandler (some r) store).response = ApiResponse.err 404 "Song not found to retry." ∧
      (retryHandler (some r) store).store = store ∧
      (retryHandler (some r) store).pipelineCall = none) ∧
    (∀ (r : SongRef) (i fs : String) (s : Song), r.id = some i → r.failedStep = some fs →
      i ≠ "" → fs ≠ "" → lookupStore store i = some s →
      (retryHandler (some r) store).response = ApiResponse.ok 200 (retryApply fs s) ∧
      (retryApply fs s).failedStep = none ∧
      (retryApply fs s).status = fs ∧
      (retryApply fs s).statusMessage = "Retrying..." ∧
      lookupStore (retryHandler (some r) store).store i = some (retryApply fs s) ∧
      (retryHandler (some r) store).pipelineCall = some (i, fs)) := by
  refine ⟨⟨rfl, rfl, rfl⟩, ?_, ?_, ?_⟩
  · intro r hfs
    cases hid : r.id <;> simp [retryHandler, hid, hfs, retryReject]
  · intro r i fs hid hfs hi hf hlook
    simp [retryHandler, hid, hfs, hi, hf, hlook]
  · intro r i fs s hid hfs hi hf hlook
    simp [retryHandler, hid, hfs, hi, hf, hlook, retryApply, lookupStore_setStore_self]

def storedErrorSong : Song :=
  { sampleSong with
      status := GenerationStatus.ERROR
      statusMessage := "rate limited"
      failedStep := some GenerationStatus.GENERATING_AUDIO
      videoUrl := none
      thumbnailUrl := none }

def demoStore : Store := [("s1", storedErrorSong)]

def retryRefOk : SongRef :=
  { id := some "s1", failedStep := some GenerationStatus.GENERATING_AUDIO }

theorem retry_handler_contract_witness :
    (retryRefOk.id = some "s1" ∧
      retryRefOk.failedStep = some GenerationStatus.GENERATING_AUDIO ∧
      ("s1" : String) ≠ "" ∧ GenerationStatus.GENERATING_AUDIO ≠ "" ∧
      lookupStore demoStore "s1" = some storedErrorSong) ∧
    ((retryHandler (some retryRefOk) demoStore).response
        = ApiResponse.ok 200 (retryApply GenerationStatus.GENERATING_AUDIO storedErrorSong) ∧
      (retryApply GenerationStatus.GENERATING_AUDIO storedErrorSong).failedStep = none ∧
      (retryApply GenerationStatus.GENERATING_AUDIO storedErrorSong).status
        = GenerationStatus.GENERATING_AUDIO ∧
      (retryApply GenerationStatus.GENERATING_AUDIO storedErrorSong).statusMessage
        = "Retrying..." ∧
      lookupStore (retryHandler (some retryRefOk) demoStore).store "s1"
        = some (retryApply GenerationStatus.GENERATING_AUDIO storedErrorSong) ∧
      (retryHandler (some retryRefOk) demoStore).pipelineCall
        = some ("s1", GenerationStatus.GENERATING_AUDIO)) :=
  ⟨⟨rfl, rfl, by decide, by decide, rfl⟩,
    (retry_handler_contract demoStore).2.2.2 retryRefOk "s1"
      GenerationStatus.GENERATING_AUDIO storedErrorSong rfl rfl (by decide) (by decide) rfl⟩

def retryRefMismatch : SongRef :=
  { id := some "s1", failedStep := some GenerationStatus.GENERATING_ART }

/-- C4 counterexample: the stored record failed at GENERATING_AUDIO,
the retry request supplies GENERATING_ART instead, and the handler
accepts it and starts the detached pipeline at GENERATING_ART, which
differs from both the stored failedStep and the initial state: the
caller-supplied resume point is used unvalidated. -/
theorem retry_resume_point_cex :
    storedErrorSong.failedStep = some GenerationStatus.GENERATING_AUDIO ∧
    storedErrorSong.status = GenerationStatus.ERROR ∧
    lookupStore demoStore "s1" = some storedErrorSong ∧
    (retryHandler (some retryRefMismatch) demoStore).response
      = ApiResponse.ok 200 (retryApply GenerationStatus.GENERATING_ART storedErrorSong) ∧
    (retryHandler (some retryRefMismatch) demoStore).pipelineCall
      = some ("s1", GenerationStatus.GENERATING_ART) ∧
    GenerationStatus.GENERATING_ART ≠ GenerationStatus.GENERATING_AUDIO ∧
    GenerationStatus.GENERATING_ART ≠ GenerationStatus.GENERATING_LYRICS :=
  ⟨rfl, rfl, rfl, rfl, rfl, by decide, by decide⟩

/-- C4 (amended): for every accepted retry, the resume point handed to
the pipeline equals the failedStep carried by the caller-supplied song
reference, and the record's status is set to that step; the stored
record's own failedStep is not consulted. -/
theorem retry_resume_uses_caller_failedStep (store : Store) (r : SongRef) (i fs : String)
    (s : Song) (hid : r.id = some i) (hfs : r.failedStep = some fs) (hi : i ≠ "")
    (hf : fs ≠ "") (hlook : lookupStore store i = some s) :
    (retryHandler (some r) store).pipelineCall = some (i, fs) ∧
    (retryApply fs s).status = fs := by
  constructor
  · simp [retryHandler, hid, hfs, hi, hf, hlook]
  · rfl

theorem retry_resume_uses_caller_failedStep_witness :
    (retryRefMismatch.id = some "s1" ∧
      retryRefMismatch.failedStep = some GenerationStatus.GENERATING_ART ∧
      ("s1" : String) ≠ "" ∧ GenerationStatus.GENERATING_ART ≠ "" ∧
      lookupStore demoStore "s1" = some storedErrorSong) ∧
    ((retryHandler (some retryRefMismatch) demoStore).pipelineCall
        = some ("s1", GenerationStatus.GENERATING_ART) ∧
      (retryApply GenerationStatus.GENERATING_ART storedErrorSong).status
        = GenerationStatus.GENERATING_ART) :=
  ⟨⟨rfl, rfl, by decide, by decide, rfl⟩,
    retry_resume_uses_caller_failedStep demoStore retryRefMismatch "s1"
      GenerationStatus.GENERATING_ART storedErrorSong rfl rfl (by decide) (by decide) rfl⟩

/-- C6: for an existing song, regenerate-video overwrites videoStyle
and difficulty with the supplied request values, clears videoUrl and
thumbnailUrl, persists the updated record, responds 200 with it, and
leaves lyrics, audioUrl and coverArtUrl unchanged. -/
theorem regenerate_video_contract (store : Store) (r : SongRef) (i : String)
    (vs df : Option String) (s : Song)
    (hid : r.id = some i) (hi : i ≠ "") (hlook : lookupStore store i = some s) :
    (regenHandler (some r) vs df store).response = ApiResponse.ok 200 (regenApply vs df s) ∧
    (regenApply vs df s).videoStyle = vs ∧
    (regenApply vs df s).difficulty = df ∧
    (regenApply vs df s).videoUrl = none ∧
    (regenApply vs df s).thumbnailUrl = none ∧
    (regenApply vs df s).lyrics = s.lyrics ∧
    (regenApply vs df s).audioUrl = s.audioUrl ∧
    (regenApply vs df s).coverArtUrl = s.coverArtUrl ∧
    lookupStore (regenHandler (some r) vs df store).store i = some (regenApply vs df s) ∧
    (regenHandler (some r) vs df store).videoCall = some i := by
  simp [regenHandler, hid, hi, hlook, regenApply, lookupStore_setStore_self]

def sampleStore : Store := [("s1", sampleSong)]

def regenRef : SongRef := { id := some "s1", failedStep := none }

theorem regenerate_video_contract_witness :
    (regenRef.id = some "s1" ∧ ("s1" : String) ≠ "" ∧
      lookupStore sampleStore "s1" = some sampleSong) ∧
    ((regenHandler (some regenRef) (some "Anime") (some "Hard") sampleStore).response
        = ApiResponse.ok 200 (regenApply (some "Anime") (some "Hard") sampleSong) ∧
      (regenApply (some "Anime") (some "Hard") sampleSong).videoStyle = some "Anime" ∧
      (regenApply (some "Anime") (some "Hard") sampleSong).difficulty = some "Hard" ∧
      (regenApply (some "Anime") (some "Hard") sampleSong).videoUrl = none ∧
      (regenApply (some "Anime") (some "Hard") sampleSong).thumbnailUrl = none ∧
      (regenApply (some "Anime") (some "Hard") sampleSong).lyrics = sampleSong.lyrics ∧
      (regenApply (some "Anime") (some "Hard") sampleSong).audioUrl = sampleSong.audioUrl ∧
      (regenApply (some "Anime") (some "Hard") sampleSong).coverArtUrl
        = sampleSong.coverArtUrl ∧
      lookupStore (regenHandler (some regenRef) (some "Anime") (some "Hard") sampleStore).store
        "s1" = some (regenApply (some "Anime") (some "Hard") sampleSong) ∧
      (regenHandler (some regenRef) (some "Anime") (some "Hard") sampleStore).videoCall
        = some "s1") :=
  ⟨⟨rfl, by decide, rfl⟩,
    regenerate_video_contract sampleStore regenRef "s1" (some "Anime") (some "Hard")
      sampleSong rfl (by decide) rfl⟩

/-- C7: POST generate with an absent prompt answers 400 and leaves the
store untouched; with a non-empty prompt and a completed metadata call
it stores a new record whose id is the fresh uuid (assumed non-empty
and unused in the store) and whose status is GENERATING_LYRICS, and
answers 201 with that record. -/
theorem generate_handler_contract (freshId : String) (now : Nat)
    (mo : Except String (Option Metadata)) (req : GenerateRequest) (store : Store) :
    (req.prompt = none →
      generateHandler freshId now mo req store
        = (store, ApiResponse.err 400 "Prompt is required.")) ∧
    (∀ (p : String) (md : Option Metadata), req.prompt = some p → p ≠ "" →
      mo = Except.ok md → freshId ≠ "" → lookupStore store freshId = none →
      generateHandler freshId now mo req store
        = (setStore store freshId (createdSong freshId now req p md),
           ApiResponse.ok 201 (createdSong freshId now req p md)) ∧
      (createdSong freshId now req p md).id = freshId ∧
      (createdSong freshId now req p md).status = GenerationStatus.GENERATING_LYRICS ∧
      lookupStore (setStore store freshId (createdSong freshId now req p md)) freshId
        = some (createdSong freshId now req p md)) := by
  constructor
  · intro hp
    simp [generateHandler, hp]
  · intro p md hp hpne hmo hfid hfresh
    subst hmo
    exact ⟨by simp [generateHandler, hp, hpne], createdSong_id freshId now req p md,
      createdSong_status freshId now req p md,
      lookupStore_setStore_self store freshId (createdSong freshId now req p md)⟩

theorem generate_handler_contract_witness :
    (demoReq.prompt = some "synthwave night drive" ∧
      ("synthwave night drive" : String) ≠ "" ∧
      ("a1" : String) ≠ "" ∧ lookupStore ([] : Store) "a1" = none) ∧
    (generateHandler "a1" 0 (Except.ok none) demoReq []
        = (setStore [] "a1" (createdSong "a1" 0 demoReq "synthwave night drive" none),
           ApiResponse.ok 201 (createdSong "a1" 0 demoReq "synthwave night drive" none)) ∧
      (createdSong "a1" 0 demoReq "synthwave night drive" none).id = "a1" ∧
      (createdSong "a1" 0 demoReq "synthwave night drive" none).status
        = GenerationStatus.GENERATING_LYRICS ∧
      lookupStore (setStore [] "a1" (createdSong "a1" 0 demoReq "synthwave night drive" none))
        "a1" = some (createdSong "a1" 0 demoReq "synthwave night drive" none)) :=
  ⟨⟨rfl, by decide, by decide, rfl⟩,
    (generate_handler_contract "a1" 0 (Except.ok none) demoReq []).2
      "synthwave night drive" none rfl (by decide) rfl (by decide) rfl⟩

end AIMusic
